import Mathlib

/-!
Verification development for the FRED economic-data fetcher
(`src/fred_apis.py`, class `FREDDataFetcher`).

The Python code is shallowly embedded as executable Lean definitions:

* pandas `DataFrame`s of observations become lists of records;
* ISO-8601 (`YYYY-MM-DD`) date strings are kept as strings — for such
  strings chronological order coincides with lexicographic string order,
  which is how `pd.to_datetime` followed by sorting behaves on them;
* `pd.to_numeric(..., errors="coerce")` is modelled on the plain decimal
  fragment (optional sign, digits, optional fractional part), which covers
  the FRED payload values, including the `"."` missing-value marker;
* `df.sort_values("date")` uses the pandas default `kind="quicksort"`,
  which pandas documents as sorted-output but NOT stable; it is therefore
  modelled as an arbitrary function subject to the documented guarantee
  (`SortsByDate`: output is a permutation of the input, sorted by date);
* exceptions become `Except`/`Option` values; the wall clock handed to a
  call is an explicit `Nat` parameter (the code evaluates `datetime.now()`
  once per `fetch_series_data` call and broadcasts it);
* the filesystem is abstracted to the list of files a call writes, each
  carrying its path and its row count (the data directory is the
  constructor default `"data"`); file contents never influence control
  flow in the source, so a dataset being persisted is abstracted to its
  row count where only persistence is at stake.
-/

/-! ### Character and string helpers (models of Python `re` / `str` primitives) -/

/-- Characters matched by the regex class `\s` (ASCII fragment). -/
def isSpaceChar (c : Char) : Bool :=
  c = ' ' || c = '\t' || c = '\n' || c = '\r' || c = '\x0b' || c = '\x0c'

/-- Characters matched by the regex class `[^&\s]` used in the
`api_key`/`series_id` capture groups. -/
def tokenChar (c : Char) : Bool :=
  !(c = '&' || isSpaceChar c)

/-- Model of Python `str.strip()`: remove leading and trailing whitespace. -/
def stripChars (cs : List Char) : List Char :=
  ((cs.dropWhile isSpaceChar).reverse.dropWhile isSpaceChar).reverse

/-- Does `cs` start with `key`? (model of matching a literal at a position). -/
def startsWithChars : List Char → List Char → Bool
  | [], _ => true
  | _ :: _, [] => false
  | a :: as, b :: bs => a = b && startsWithChars as bs

/-- Suffix of `content` after the first (leftmost) occurrence of the literal
`key`, or `none` when `key` does not occur.  `re.search` scans positions left
to right, and the patterns below start with a literal, so match positions are
exactly the occurrences of that literal. -/
def findAfterKey (key : List Char) : List Char → Option (List Char)
  | [] => if startsWithChars key [] then some [] else none
  | c :: t =>
    if startsWithChars key (c :: t) then some (List.drop key.length (c :: t))
    else findAfterKey key t

/-- Model of `re.search(key + r'\s*(.+)', content)` followed by
`.group(1).strip()` (used for the `name:` and `url:` lines).

In Python `\s*` is greedy and may cross newlines while `.` cannot match a
newline, so with `rest` the text after the whitespace run following the first
occurrence of `key`:
* if `rest` is nonempty the capture is `rest` up to the end of its line;
* otherwise the regex backtracks into the whitespace run and still matches
  when that run contains a non-newline character, capturing whitespace only,
  which `strip()` reduces to the empty string;
* otherwise there is no match at this occurrence, and (the remainder being
  all whitespace) no later occurrence of `key` can exist either. -/
def searchLineValue (key content : List Char) : Option (List Char) :=
  match findAfterKey key content with
  | none => none
  | some cs =>
    let rest := cs.dropWhile isSpaceChar
    if !rest.isEmpty then some (stripChars (rest.takeWhile (fun c => c ≠ '\n')))
    else if (cs.takeWhile isSpaceChar).any (fun c => c ≠ '\n') then some []
    else none

/-- One attempted match of `[=:]([^&\s]+)` immediately after the key literal. -/
def tokenAt (after : List Char) : Option (List Char) :=
  match after with
  | [] => none
  | sep :: rest =>
    if sep = '=' || sep = ':' then
      let cap := rest.takeWhile tokenChar
      if cap.isEmpty then none else some cap
    else none

/-- Model of `re.search(key + r'[=:]([^&\s]+)', content).group(1)`: scan
positions left to right; at each occurrence of the literal `key` try to match
a separator and a nonempty capture, otherwise keep scanning. -/
def searchToken (key : List Char) : List Char → Option (List Char)
  | [] => none
  | c :: t =>
    if startsWithChars key (c :: t) then
      match tokenAt (List.drop key.length (c :: t)) with
      | some cap => some cap
      | none => searchToken key t
    else searchToken key t

/-! ### `pd.to_numeric(..., errors="coerce")` on one value string -/

def isDigitChar (c : Char) : Bool := '0' ≤ c && c ≤ '9'

def digitVal (c : Char) : Nat := c.toNat - '0'.toNat

def natOfDigits (ds : List Char) : Nat := ds.foldl (fun n c => n * 10 + digitVal c) 0

/-- Numeric coercion of a FRED value string: optional sign, then digits with
at most one decimal point and at least one digit overall; anything else
(including the FRED missing-value marker `"."`) coerces to missing (`none`,
pandas `NaN`).  The sign is applied by negation so that integer-valued
strings evaluate without rational normalization. -/
def to_numeric (s : String) : Option ℚ :=
  let p := match s.data with
    | '-' :: t => (true, t)
    | '+' :: t => (false, t)
    | cs => (false, cs)
  let intPart := p.2.takeWhile isDigitChar
  let rest := p.2.dropWhile isDigitChar
  let mag : Option ℚ := match rest with
    | [] => if intPart.isEmpty then none else some ((natOfDigits intPart : ℚ))
    | '.' :: fracRest =>
      let frac := fracRest.takeWhile isDigitChar
      if !(fracRest.dropWhile isDigitChar).isEmpty then none
      else if intPart.isEmpty && frac.isEmpty then none
      else some ((natOfDigits (intPart ++ frac) : ℚ) / ((10 ^ frac.length : Nat) : ℚ))
    | _ => none
  mag.map (fun m => if p.1 then -m else m)

/-! ### Data model -/

/-- One raw observation record from the JSON payload: a `{date, value}` pair
of strings (upstream contract, spec section 6). -/
structure RawObs where
  date : String
  value : String
deriving DecidableEq

/-- One cleaned observation row as produced by `fetch_series_data`: parsed
date (kept as its ISO string), numeric value, and the two metadata columns
added at lines 173-174 of `fred_apis.py`. -/
structure Obs where
  date : String
  value : ℚ
  series_id : String
  fetched_at : Nat
deriving DecidableEq

/-- The parts of an HTTP exchange that `fetch_series_data` branches on:
`ok = false` models any `requests.exceptions.RequestException` (connection,
timeout, or `raise_for_status`); `observations` is the value of the
`observations` key of the JSON body, `none` when the key is absent. -/
structure HttpResponse where
  ok : Bool
  observations : Option (List RawObs)
deriving DecidableEq

/-! ### `fetch_series_data` (lines 147-184) -/

/-- Value cleaning, lines 168-169: `pd.to_numeric(df['value'], errors='coerce')`
followed by `df.dropna(subset=['value'])`.  Rows whose value fails coercion
are dropped; row order is otherwise preserved. -/
def cleanRows (observations : List RawObs) : List (String × ℚ) :=
  observations.filterMap (fun o => (to_numeric o.value).map (fun v => (o.date, v)))

/-- Lexicographic order on character lists (by code point).  On ISO-8601
`YYYY-MM-DD` strings this is exactly chronological order, i.e. the order
`pd.to_datetime` induces. -/
def charsLe : List Char → List Char → Bool
  | [], _ => true
  | _ :: _, [] => false
  | a :: as, b :: bs =>
    if a.toNat = b.toNat then charsLe as bs else decide (a.toNat < b.toNat)

theorem charsLe_total : ∀ as bs : List Char, charsLe as bs = true ∨ charsLe bs as = true := by
  intro as
  induction as with
  | nil => intro bs; left; rfl
  | cons a as ih =>
    intro bs
    cases bs with
    | nil => right; rfl
    | cons b bs =>
      by_cases h : a.toNat = b.toNat
      · rcases ih bs with h2 | h2
        · left; simp [charsLe, h, h2]
        · right; simp [charsLe, h.symm, h2]
      · rcases Nat.lt_or_ge a.toNat b.toNat with hlt | hge
        · left; simp [charsLe, h, hlt]
        · right
          have hne : b.toNat ≠ a.toNat := fun hb => h hb.symm
          simp [charsLe, hne, lt_of_le_of_ne hge hne]

theorem charsLe_trans : ∀ as bs cs : List Char,
    charsLe as bs = true → charsLe bs cs = true → charsLe as cs = true := by
  intro as
  induction as with
  | nil => intro bs cs h1 h2; rfl
  | cons a as ih =>
    intro bs cs h1 h2
    cases bs with
    | nil => exact absurd h1 (by simp [charsLe])
    | cons b bs =>
      cases cs with
      | nil => exact absurd h2 (by simp [charsLe])
      | cons c cs =>
        simp only [charsLe] at h1 h2 ⊢
        by_cases hab : a.toNat = b.toNat <;> by_cases hbc : b.toNat = c.toNat
        · rw [if_pos hab] at h1
          rw [if_pos hbc] at h2
          rw [if_pos (hab.trans hbc)]
          exact ih bs cs h1 h2
        · rw [if_pos hab] at h1
          rw [if_neg hbc] at h2
          rw [if_neg (hab ▸ hbc), hab]
          exact h2
        · rw [if_neg hab] at h1
          rw [if_pos hbc] at h2
          rw [if_neg (fun hac => hab (hbc ▸ hac)), ← hbc]
          exact h1
        · rw [if_neg hab] at h1
          rw [if_neg hbc] at h2
          have hlt : a.toNat < c.toNat :=
            Nat.lt_trans (of_decide_eq_true h1) (of_decide_eq_true h2)
          rw [if_neg (Nat.ne_of_lt hlt)]
          exact decide_eq_true hlt

/-- Ascending date order on ISO date strings. -/
def dateLe (a b : String) : Bool := charsLe a.data b.data

/-- Row order used by `df.sort_values('date')`: ascending date. -/
def byDate (a b : String × ℚ) : Prop := dateLe a.1 b.1 = true

instance : DecidableRel byDate := fun a b => inferInstanceAs (Decidable (dateLe a.1 b.1 = true))

instance : IsTotal (String × ℚ) byDate := ⟨fun a b => charsLe_total a.1.data b.1.data⟩

instance : IsTrans (String × ℚ) byDate :=
  ⟨fun a b c h₁ h₂ => charsLe_trans a.1.data b.1.data c.1.data h₁ h₂⟩

/-- The guarantee pandas documents for `sort_values` with the default
`kind="quicksort"`: the output is a permutation of the input, sorted by the
key.  Stability is documented only for `kind="mergesort"`/`"stable"`, so a
faithful model quantifies over every function with this guarantee. -/
def SortsByDate (f : List (String × ℚ) → List (String × ℚ)) : Prop :=
  ∀ l, (f l).Perm l ∧ (f l).Pairwise byDate

/-- A concrete admissible sort (used to run the model on concrete inputs). -/
def sortByDate (l : List (String × ℚ)) : List (String × ℚ) :=
  l.insertionSort byDate

theorem sortsByDate_sortByDate : SortsByDate sortByDate :=
  fun l => ⟨List.perm_insertionSort byDate l, List.sorted_insertionSort byDate l⟩

/-- `fetch_series_data(series_id, ...)`, lines 147-184, relative to the HTTP
response `resp` the environment returns, the wall-clock reading `now`
(`datetime.now()` is evaluated once, at line 174), and the sorting function
`sortFn` (the behaviour `sort_values` exhibits on this call).

Failure paths returning `None`: a transport error (lines 179-181), a body
without the `observations` key (lines 154-156), and an empty observation
list (`df.empty`, lines 162-164 — checked BEFORE value cleaning).  Otherwise
the cleaned, sorted rows are returned with the two metadata columns added;
dates are assumed ISO-parseable per the upstream contract, so
`pd.to_datetime` never raises here. -/
def fetch_series_data (sortFn : List (String × ℚ) → List (String × ℚ))
    (resp : HttpResponse) (series_id : String) (now : Nat) : Option (List Obs) :=
  if !resp.ok then none
  else
    match resp.observations with
    | none => none
    | some observations =>
      if observations.isEmpty then none
      else
        let sorted := sortFn (cleanRows observations)
        some (sorted.map (fun p => { date := p.1, value := p.2, series_id := series_id, fetched_at := now }))

/-! ### `save_data` (lines 186-210) -/

/-- One file written to disk, abstracted to its path and row count. -/
structure FileWrite where
  path : String
  nrows : Nat
deriving DecidableEq

/-- Outcome of one `save_data` call: files written, the exception (if any)
that escapes to the caller, and whether the `except` handler logged an
error. -/
structure SaveResult where
  written : List FileWrite
  callerError : Option String
  loggedError : Bool
deriving DecidableEq

/-- `self.data_dir / f"{filename}.{format}"` with the constructor-default
data directory. -/
def outPath (filename fmt : String) : String :=
  "data/" ++ filename ++ "." ++ fmt

/-- The `try` block of `save_data`, lines 198-205: dispatch on the format,
writing one file, or `raise ValueError(...)` for an unsupported format (no
file has been touched when the `raise` runs). -/
def save_body (path fmt : String) (nrows : Nat) : Except String (List FileWrite) :=
  if fmt = "csv" then Except.ok [{ path := path, nrows := nrows }]
  else if fmt = "json" then Except.ok [{ path := path, nrows := nrows }]
  else if fmt = "parquet" then Except.ok [{ path := path, nrows := nrows }]
  else Except.error ("Unsupported format: " ++ fmt)

/-- `save_data(data, filename, format)`, lines 186-210.  The `except
Exception` at line 209 catches EVERY exception raised in the `try` block —
including the `ValueError` raised at line 205 for an unsupported format —
logs it, and falls through, so no exception ever reaches the caller. -/
def save_data (nrows : Nat) (filename fmt : String) : SaveResult :=
  match save_body (outPath filename fmt) fmt nrows with
  | Except.ok ws => { written := ws, callerError := none, loggedError := false }
  | Except.error _ => { written := [], callerError := none, loggedError := true }

/-! ### `parse_bruno_file` (lines 62-109) -/

/-- The configuration record built by `parse_bruno_file` (the `params` key
is initialised to an empty dict and never populated, so it is omitted). -/
structure BrunoConfig where
  name : String
  url : String
  series_id : String
  api_key : String
deriving DecidableEq

def emptyConfig : BrunoConfig := { name := "", url := "", series_id := "", api_key := "" }

/-- The pure part of `parse_bruno_file`: the returned config.  The argument
is `none` when reading the file raises (open/IO failure), in which case the
`except` at line 106 logs and the initial all-empty config is returned.
Each extraction is the corresponding `re.search` at lines 85-104; an
unmatched pattern leaves the field at its initial `''`. -/
def parseConfig (file : Option String) : BrunoConfig :=
  match file with
  | none => emptyConfig
  | some content =>
    { name := ((searchLineValue "name:".data content.data).map (fun l => String.mk l)).getD ""
      url := ((searchLineValue "url:".data content.data).map (fun l => String.mk l)).getD ""
      series_id := ((searchToken "series_id".data content.data).map (fun l => String.mk (stripChars l))).getD ""
      api_key := ((searchToken "api_key".data content.data).map (fun l => String.mk (stripChars l))).getD "" }

/-- The `api_key` capture of one file, if any (the value that lines 95-97
store into `config['api_key']`); `none` on read failure or no match. -/
def extractApiKey (file : Option String) : Option String :=
  match file with
  | none => none
  | some content => (searchToken "api_key".data content.data).map (fun l => String.mk (stripChars l))

/-- The update of `self.api_key` performed at lines 98-99: `if not
self.api_key: self.api_key = config['api_key']`.  An unset key is modelled
as `""` (`None` and `''` are both falsy). -/
def updateKey (file : Option String) (selfKey : String) : String :=
  match extractApiKey file with
  | some k => if selfKey = "" then k else selfKey
  | none => selfKey

/-- `parse_bruno_file(file_path)`, lines 62-109: returns the config together
with the new value of `self.api_key`.  The function is total — every
exception, IO failure included, is caught at line 106. -/
def parse_bruno_file (file : Option String) (selfKey : String) : BrunoConfig × String :=
  (parseConfig file, updateKey file selfKey)

/-- Processing a list of files in sequence, threading `self.api_key`. -/
def foldKey (files : List (Option String)) (k : String) : String :=
  files.foldl (fun k f => (parse_bruno_file f k).2) k

/-! ### `series_mappings` and `get_corrected_series_ids` (lines 43-60, 111-121) -/

/-- The static `series_mappings` dict, lines 43-60. -/
def series_mappings : List (String × List String) :=
  [("CPI data", ["CPIAUCSL", "CPALTT01USM657N"]),
   ("GDP data", ["GDP", "GDPC1"]),
   ("UNRATE data", ["UNRATE"]),
   ("Interest Rate data", ["INTDSRUSM193", "FEDFUNDS", "DGS10"]),
   ("Consumer Confidence data", ["UMCSENT"]),
   ("Housing Starts data", ["HOUST"]),
   ("Trade Balance data", ["BOPGSTB"]),
   ("Current Account data", ["NETEXP"]),
   ("Government Debt & Budget Deficit data", ["GFDEGDQ188S", "FYFSGDA188S"]),
   ("PPI data", ["PPIACO"]),
   ("PPI Gold Ore data", ["PCU2122212122"]),
   ("Crude Oil data", ["DCOILWTICO"]),
   ("S&P 500 data", ["SP500"]),
   ("Dow Jones Industrial Average data", ["DJIA"]),
   ("NASDAQ Composite data", ["NASDAQCOM"]),
   ("Currency Conversions data", ["DEXUSEU", "DEXJPUS", "DEXUSUK"])]

/-- `get_corrected_series_ids`, lines 111-121: `self.series_mappings.get(indicator_name, [])`. -/
def get_corrected_series_ids (indicator_name : String) : List String :=
  ((series_mappings.find? (fun p => p.1 = indicator_name)).map (fun p => p.2)).getD []

/-! ### `fetch_all_indicators` (lines 212-296) -/

/-- One discovered Bruno file: its stem (filename without extension) and its
content (`none` when reading it raises). -/
structure BrunoInput where
  stem : String
  content : Option String
deriving DecidableEq

/-- Loop state of `fetch_all_indicators`: the threaded `self.api_key`, the
`all_data` dict (as an association list in insertion order — Python dicts
keep the first-insertion position on overwrite) and the files written so
far.  Datasets are abstracted to their row counts (contents never influence
the orchestrator's control flow). -/
structure OrchState where
  apiKey : String
  all_data : List (String × Nat)
  writes : List FileWrite
deriving DecidableEq

/-- `all_data[indicator_name] = combined_df` (Python dict assignment). -/
def dictInsert (d : List (String × Nat)) (k : String) (v : Nat) : List (String × Nat) :=
  if d.any (fun p => p.1 = k) then d.map (fun p => if p.1 = k then (k, v) else p)
  else d ++ [(k, v)]

/-- `indicator_name = config['name'] or bruno_file.stem`, line 243
(an empty parsed name is falsy). -/
def indicatorNameOf (f : BrunoInput) : String :=
  if (parseConfig f.content).name = "" then f.stem else (parseConfig f.content).name

/-- Lines 246-254: resolve via the catalog, falling back to the series id
embedded in the file; an empty result means the file is skipped. -/
def resolveSeries (cfg : BrunoConfig) (name : String) : List String :=
  let ids := get_corrected_series_ids name
  if ids.isEmpty then (if cfg.series_id = "" then [] else [cfg.series_id]) else ids

/-- The resolved series ids of one file. -/
def seriesOf (f : BrunoInput) : List String :=
  resolveSeries (parseConfig f.content) (indicatorNameOf f)

/-- Row count of the combined per-indicator dataset: `pd.concat` of the
non-`None` per-series fetch results, lines 256-271.  `fetchRes` maps a
series id to the result `fetch_series_data` returns for it in this run,
abstracted to a row count (`none` = failure). -/
def rowsOf (fetchRes : String → Option Nat) (f : BrunoInput) : Nat :=
  ((seriesOf f).filterMap fetchRes).sum

/-- Does the file reach the `if indicator_data:` branch with a nonempty
list, lines 266-277?  Note a successful fetch with ZERO rows still counts:
`df is not None` is the only test at line 260. -/
def contributes (fetchRes : String → Option Nat) (f : BrunoInput) : Bool :=
  !(seriesOf f).isEmpty && !((seriesOf f).filterMap fetchRes).isEmpty

/-- `clean_filename = re.sub(r'[^\w\-_]', '_', indicator_name.lower())`,
line 276.  The character class matches one character at a time, so the
substitution is a character map; `\w` is modelled on its ASCII fragment
(alphanumeric or underscore), which covers every name the repo uses.
Note the class `[^\w\-_]` does NOT match a hyphen, so hyphens survive. -/
def re_sub_nonword_underscore (s : String) : String :=
  String.mk (s.data.map (fun c => if !(c.isAlphanum || c = '_' || c = '-') then '_' else c))

/-- Python `str.lower()` (ASCII fragment). -/
def lowerStr (s : String) : String := String.mk (s.data.map Char.toLower)

def clean_filename (name : String) : String :=
  re_sub_nonword_underscore (lowerStr name)

/-- The body of the `for bruno_file in bruno_files:` loop, lines 238-280. -/
def processFile (fetchRes : String → Option Nat) (fmt : String)
    (st : OrchState) (f : BrunoInput) : OrchState :=
  let cfg := parseConfig f.content
  let key2 := updateKey f.content st.apiKey
  let name := if cfg.name = "" then f.stem else cfg.name
  let sids := resolveSeries cfg name
  if sids.isEmpty then { apiKey := key2, all_data := st.all_data, writes := st.writes }
  else
    let indicator_data := sids.filterMap fetchRes
    if indicator_data.isEmpty then { apiKey := key2, all_data := st.all_data, writes := st.writes }
    else
      let combined := indicator_data.sum
      { apiKey := key2
        all_data := dictInsert st.all_data name combined
        writes := st.writes ++ (save_data combined (clean_filename name) fmt).written }

/-- Result of one `fetch_all_indicators` run. -/
structure OrchResult where
  all_data : List (String × Nat)
  writes : List FileWrite
  apiKey : String
deriving DecidableEq

/-- `fetch_all_indicators(bruno_dir, start_date, format, delay)`, lines
212-296, relative to the discovered files and the per-series fetch results
of this run.  After the loop, if `all_data` is nonempty the combined
dataset (every indicator's rows, tagged with the indicator name —
the tag does not change row counts) is saved under the fixed base name
`"all_economic_indicators"`, lines 282-293; the per-indicator dict is
returned. -/
def fetch_all_indicators (files : List BrunoInput) (fetchRes : String → Option Nat)
    (fmt : String) (apiKey0 : String) : OrchResult :=
  let st := files.foldl (processFile fetchRes fmt) { apiKey := apiKey0, all_data := [], writes := [] }
  if st.all_data.isEmpty then { all_data := st.all_data, writes := st.writes, apiKey := st.apiKey }
  else
    let total := (st.all_data.map (fun p => p.2)).sum
    { all_data := st.all_data
      writes := st.writes ++ (save_data total "all_economic_indicators" fmt).written
      apiKey := st.apiKey }

/-- The files the loop body writes for one input file (used to decompose a
run's write list file by file). -/
def perFileWrites (fetchRes : String → Option Nat) (fmt : String) (f : BrunoInput) : List FileWrite :=
  if contributes fetchRes f then
    (save_data (rowsOf fetchRes f) (clean_filename (indicatorNameOf f)) fmt).written
  else []

/-! ### Claim C9 -/

/-- Claim C9 (confirmed): `get_corrected_series_ids` is a pure, total lookup
in the fixed table: `"GDP data"` resolves to exactly `["GDP", "GDPC1"]`, and
a name outside the table (such as `"unknown indicator"`) resolves to the
empty list. -/
theorem C9_resolve_lookup :
    get_corrected_series_ids "GDP data" = ["GDP", "GDPC1"] ∧
    get_corrected_series_ids "unknown indicator" = [] := by
  constructor <;> rfl

/-! ### Claim C1 -/

/-- Claim C1 as stated: for every format outside the supported set,
`save_data` surfaces a `ValueError`-class condition to the caller and
creates no file. -/
def C1_claim : Prop :=
  ∀ (nrows : Nat) (filename fmt : String),
    ¬(fmt = "csv" ∨ fmt = "json" ∨ fmt = "parquet") →
      (save_data nrows filename fmt).callerError ≠ none ∧
      (save_data nrows filename fmt).written = []

/-- Claim C1 is false on the code: with format `"xml"` the `ValueError`
raised at line 205 is caught by `save_data`'s own `except Exception` at
line 209, so the caller observes a normal return (`callerError = none`),
not a visible error. -/
theorem C1_counterexample : ¬ C1_claim := by
  intro h
  exact absurd ((h 5 "gdp_example" "xml" (by decide)).1) (by simp [save_data, save_body])

/-- Claim C1 (amended): for every format outside `{"csv","json","parquet"}`,
`save_data` raises a `ValueError` internally but its own generic exception
handler catches and logs it; the caller observes a normal return with no
visible error, and no file is created or touched. -/
theorem C1_amended (nrows : Nat) (filename fmt : String)
    (h : ¬(fmt = "csv" ∨ fmt = "json" ∨ fmt = "parquet")) :
    save_data nrows filename fmt =
      { written := [], callerError := none, loggedError := true } := by
  push_neg at h
  simp [save_data, save_body, h.1, h.2.1, h.2.2]

/-- Concrete instance of the amended C1 at format `"xml"`. -/
theorem C1_amended_witness :
    save_data 5 "gdp_example" "xml" =
      { written := [], callerError := none, loggedError := true } :=
  C1_amended 5 "gdp_example" "xml" (by decide)

/-! ### Claim C3 -/

/-- Claim C3 as stated: `fetch_series_data` fails (returns `None`) exactly
for a transport error, a body without the observations field, or a parsed
table that is empty AFTER cleaning (so a list whose rows are all dropped
would have to fail). -/
def C3_claim : Prop :=
  ∀ (sortFn : List (String × ℚ) → List (String × ℚ)), SortsByDate sortFn →
    ∀ (resp : HttpResponse) (sid : String) (now : Nat),
      (fetch_series_data sortFn resp sid now = none ↔
        (resp.ok = false ∨ resp.observations = none ∨
          cleanRows (resp.observations.getD []) = []))

/-- Claim C3 is false on the code: the `df.empty` test at line 162 runs
BEFORE cleaning, so an observation list whose single row has the
non-numeric value `"."` is dropped during cleaning and the call returns an
EMPTY dataset (`some []`), not the failure value. -/
theorem C3_counterexample : ¬ C3_claim := by
  intro h
  have h2 := (h sortByDate sortsByDate_sortByDate
      { ok := true, observations := some [{ date := "2020-01-01", value := "." }] }
      "S" 0).2 (Or.inr (Or.inr (by decide)))
  exact absurd h2 (by decide)

/-- Claim C3 (amended): `fetch_series_data` returns the failure value
exactly for a transport error, a body without the observations field, or an
observation list that is empty BEFORE cleaning; a nonempty list whose rows
are all dropped during cleaning yields an empty dataset instead. -/
theorem C3_amended (sortFn : List (String × ℚ) → List (String × ℚ))
    (resp : HttpResponse) (sid : String) (now : Nat) :
    fetch_series_data sortFn resp sid now = none ↔
      (resp.ok = false ∨ resp.observations = none ∨ resp.observations = some []) := by
  rcases resp with ⟨ok, obs⟩
  cases ok
  · simp [fetch_series_data]
  · cases obs with
    | none => simp [fetch_series_data]
    | some l => cases l <;> simp [fetch_series_data]

/-! ### Claim C2 -/

/-- Claim C2 as stated: for every admissible behaviour of the sorting step
and every input, the returned rows are ascending by date AND the sort is
stable — rows with equal dates keep the relative order they had after
cleaning (which preserves raw-input order). -/
def C2_claim : Prop :=
  ∀ (sortFn : List (String × ℚ) → List (String × ℚ)), SortsByDate sortFn →
    ∀ (resp : HttpResponse) (sid : String) (now : Nat) (out : List Obs),
      fetch_series_data sortFn resp sid now = some out →
        ((out.map Obs.date).Pairwise (fun a b => dateLe a b = true) ∧
          ∀ d : String, (out.filter (fun o => o.date = d)).map Obs.value =
            ((cleanRows (resp.observations.getD [])).filter (fun p => p.1 = d)).map Prod.snd)

/-- A sorting behaviour that is admissible for pandas quicksort (sorted
output, permutation of the input) but swaps one particular pair of
equal-date rows. -/
def badSort (l : List (String × ℚ)) : List (String × ℚ) :=
  if l = [("2020-01-01", 1), ("2020-01-01", 2)] then [("2020-01-01", 2), ("2020-01-01", 1)]
  else sortByDate l

theorem sortsByDate_badSort : SortsByDate badSort := by
  intro l
  by_cases h : l = [("2020-01-01", 1), ("2020-01-01", 2)]
  · subst h
    simp only [badSort, if_pos rfl]
    refine ⟨List.Perm.swap _ _ _, ?_⟩
    refine List.Pairwise.cons (fun y hy => ?_) (List.Pairwise.cons (fun y hy => ?_) List.Pairwise.nil)
    · rw [List.mem_singleton] at hy
      subst hy
      exact (by decide : byDate ("2020-01-01", 2) ("2020-01-01", 1))
    · exact absurd hy (List.not_mem_nil y)
  · simp only [badSort, if_neg h]
    exact sortsByDate_sortByDate l

/-- Claim C2 is false on the code: `sort_values` uses the pandas default
`kind="quicksort"`, which guarantees sorted output but NOT stability, so a
behaviour that swaps two equal-date rows is admissible; on the input with
dates `[2020-01-01, 2020-01-01]` and values `[1, 2]` the output value order
`[2, 1]` differs from the original `[1, 2]`. -/
theorem C2_counterexample : ¬ C2_claim := by
  intro h
  have h2 := h badSort sortsByDate_badSort
    { ok := true, observations := some [{ date := "2020-01-01", value := "1" },
                                        { date := "2020-01-01", value := "2" }] }
    "S" 0
    [{ date := "2020-01-01", value := 2, series_id := "S", fetched_at := 0 },
     { date := "2020-01-01", value := 1, series_id := "S", fetched_at := 0 }]
    (by decide)
  exact absurd (h2.2 "2020-01-01") (by decide)

/-- Claim C2 (amended): for every admissible behaviour of the sorting step,
the returned rows are sorted ascending by date regardless of input order;
the relative order of rows with equal dates is NOT guaranteed. -/
theorem C2_amended (sortFn : List (String × ℚ) → List (String × ℚ))
    (h : SortsByDate sortFn) (resp : HttpResponse) (sid : String) (now : Nat)
    (out : List Obs) (hf : fetch_series_data sortFn resp sid now = some out) :
    (out.map Obs.date).Pairwise (fun a b => dateLe a b = true) := by
  rcases resp with ⟨ok, obs⟩
  cases ok
  · simp [fetch_series_data] at hf
  · cases obs with
    | none => simp [fetch_series_data] at hf
    | some l =>
      cases hl : l.isEmpty
      · simp only [fetch_series_data, hl, Bool.not_true, Bool.false_eq_true, if_false,
          Option.some.injEq] at hf
        subst hf
        rw [List.map_map]
        exact List.Pairwise.map _ (fun a b hab => hab) (h (cleanRows l)).2
      · simp [fetch_series_data, hl] at hf

/-- Concrete instance of the amended C2: out-of-order input dates
`[2020-03-01, 2020-01-01]` come out ascending. -/
theorem C2_amended_witness :
    (([{ date := "2020-01-01", value := (2 : ℚ), series_id := "S", fetched_at := 7 },
       { date := "2020-03-01", value := (1 : ℚ), series_id := "S", fetched_at := 7 }] :
        List Obs).map Obs.date).Pairwise (fun a b => dateLe a b = true) :=
  C2_amended sortByDate sortsByDate_sortByDate
    { ok := true, observations := some [{ date := "2020-03-01", value := "1" },
                                        { date := "2020-01-01", value := "2" }] }
    "S" 7 _ (by decide)

/-! ### Claim C7 -/

/-- Claim C7 (confirmed): rows whose value fails numeric coercion are
absent from the output — the returned rows are, up to the sort's
permutation, exactly the cleaned rows (date and numeric value of every raw
row whose value coerces), and every returned row carries the series
identifier of the call. -/
theorem C7_nonnumeric_dropped (sortFn : List (String × ℚ) → List (String × ℚ))
    (h : SortsByDate sortFn) (observations : List RawObs) (sid : String) (now : Nat)
    (out : List Obs)
    (hf : fetch_series_data sortFn { ok := true, observations := some observations } sid now
        = some out) :
    (out.map (fun o => (o.date, o.value))).Perm (cleanRows observations) ∧
    ∀ o ∈ out, o.series_id = sid := by
  cases hl : observations.isEmpty
  · simp only [fetch_series_data, hl, Bool.not_true, Bool.false_eq_true, if_false,
      Option.some.injEq] at hf
    subst hf
    constructor
    · rw [List.map_map]
      have : ((fun (o : Obs) => (o.date, o.value)) ∘
          (fun p : String × ℚ =>
            ({ date := p.1, value := p.2, series_id := sid, fetched_at := now } : Obs))) =
          fun p : String × ℚ => p := by
        funext p
        rfl
      rw [this, List.map_id']
      exact (h (cleanRows observations)).1
    · intro o ho
      rcases List.mem_map.mp ho with ⟨p, _, rfl⟩
      rfl
  · simp [fetch_series_data, hl] at hf

/-- Concrete instance of C7, mirroring the spec's example: the row with
value `"."` is dropped, the numeric row survives with its series id. -/
theorem C7_witness :
    (([{ date := "2020-02-01", value := (2 : ℚ), series_id := "S", fetched_at := 0 }] :
        List Obs).map (fun o => (o.date, o.value))).Perm
      (cleanRows [{ date := "2020-01-01", value := "." },
                  { date := "2020-02-01", value := "2" }]) ∧
    ∀ o ∈ ([{ date := "2020-02-01", value := (2 : ℚ), series_id := "S", fetched_at := 0 }] :
        List Obs), o.series_id = "S" :=
  C7_nonnumeric_dropped sortByDate sortsByDate_sortByDate
    [{ date := "2020-01-01", value := "." }, { date := "2020-02-01", value := "2" }]
    "S" 0 _ (by decide)

/-! ### Claim C10 -/

/-- Claim C10 (confirmed): within one successful `fetch_series_data` call
every returned row carries the series id of the call and the one wall-clock
reading taken at line 174 — `datetime.now()` is evaluated once per call and
broadcast to all rows, so all timestamps are identical. -/
theorem C10_uniform_metadata (sortFn : List (String × ℚ) → List (String × ℚ))
    (resp : HttpResponse) (sid : String) (now : Nat) (out : List Obs)
    (hf : fetch_series_data sortFn resp sid now = some out) :
    ∀ o ∈ out, o.series_id = sid ∧ o.fetched_at = now := by
  rcases resp with ⟨ok, obs⟩
  cases ok
  · simp [fetch_series_data] at hf
  · cases obs with
    | none => simp [fetch_series_data] at hf
    | some l =>
      cases hl : l.isEmpty
      · simp only [fetch_series_data, hl, Bool.not_true, Bool.false_eq_true, if_false,
          Option.some.injEq] at hf
        subst hf
        intro o ho
        rcases List.mem_map.mp ho with ⟨p, _, rfl⟩
        exact ⟨rfl, rfl⟩
      · simp [fetch_series_data, hl] at hf

/-- Concrete instance of C10 with two rows: both carry series id `"GDP"`
and the identical timestamp `42`. -/
theorem C10_witness :
    (Obs.series_id { date := "2020-01-01", value := (2 : ℚ), series_id := "GDP", fetched_at := 42 }
        = "GDP" ∧
      Obs.fetched_at { date := "2020-01-01", value := (2 : ℚ), series_id := "GDP", fetched_at := 42 }
        = 42) ∧
    (Obs.series_id { date := "2020-03-01", value := (1 : ℚ), series_id := "GDP", fetched_at := 42 }
        = "GDP" ∧
      Obs.fetched_at { date := "2020-03-01", value := (1 : ℚ), series_id := "GDP", fetched_at := 42 }
        = 42) :=
  ⟨C10_uniform_metadata sortByDate
      { ok := true, observations := some [{ date := "2020-03-01", value := "1" },
                                          { date := "2020-01-01", value := "2" }] }
      "GDP" 42
      [{ date := "2020-01-01", value := (2 : ℚ), series_id := "GDP", fetched_at := 42 },
       { date := "2020-03-01", value := (1 : ℚ), series_id := "GDP", fetched_at := 42 }]
      (by decide) _ (by decide),
   C10_uniform_metadata sortByDate
      { ok := true, observations := some [{ date := "2020-03-01", value := "1" },
                                          { date := "2020-01-01", value := "2" }] }
      "GDP" 42
      [{ date := "2020-01-01", value := (2 : ℚ), series_id := "GDP", fetched_at := 42 },
       { date := "2020-03-01", value := (1 : ℚ), series_id := "GDP", fetched_at := 42 }]
      (by decide) _ (by decide)⟩

/-! ### Claim C6 -/

/-- Claim C6 (confirmed): `parse_bruno_file` is total (all exceptions, IO
failures included, are caught at line 106): a read failure yields the record
with all four fields empty and leaves `self.api_key` unchanged, and any
field whose pattern does not match in the content stays the empty string. -/
theorem C6_parse_never_raises :
    (∀ (k : String), parse_bruno_file none k = (emptyConfig, k)) ∧
    ∀ (content k : String),
      (searchLineValue "name:".data content.data = none →
        (parse_bruno_file (some content) k).1.name = "") ∧
      (searchLineValue "url:".data content.data = none →
        (parse_bruno_file (some content) k).1.url = "") ∧
      (searchToken "series_id".data content.data = none →
        (parse_bruno_file (some content) k).1.series_id = "") ∧
      (searchToken "api_key".data content.data = none →
        (parse_bruno_file (some content) k).1.api_key = "") := by
  refine ⟨fun k => rfl, fun content k => ⟨?_, ?_, ?_, ?_⟩⟩ <;>
    · intro h
      simp [parse_bruno_file, parseConfig, h]

/-- Concrete instance of C6: a read failure and a content matching none of
the four patterns both produce empty fields. -/
theorem C6_witness :
    parse_bruno_file none "z" = (emptyConfig, "z") ∧
    (parse_bruno_file (some "hello") "z").1.name = "" ∧
    (parse_bruno_file (some "hello") "z").1.url = "" ∧
    (parse_bruno_file (some "hello") "z").1.series_id = "" ∧
    (parse_bruno_file (some "hello") "z").1.api_key = "" :=
  ⟨C6_parse_never_raises.1 "z",
   (C6_parse_never_raises.2 "hello" "z").1 (by decide),
   (C6_parse_never_raises.2 "hello" "z").2.1 (by decide),
   (C6_parse_never_raises.2 "hello" "z").2.2.1 (by decide),
   (C6_parse_never_raises.2 "hello" "z").2.2.2 (by decide)⟩

/-! ### Claim C8 -/

theorem tokenAt_sound (after cap : List Char) (h : tokenAt after = some cap) :
    cap ≠ [] ∧ ∀ c ∈ cap, tokenChar c = true := by
  cases after with
  | nil => exact absurd h (by simp [tokenAt])
  | cons sep rest =>
    simp only [tokenAt] at h
    split at h
    · split at h
      · exact absurd h (by simp)
      · rename_i hcap
        cases h
        exact ⟨by simpa using hcap, fun c hc => List.mem_takeWhile_imp hc⟩
    · exact absurd h (by simp)

theorem searchToken_sound (key : List Char) :
    ∀ (cs cap : List Char), searchToken key cs = some cap →
      cap ≠ [] ∧ ∀ c ∈ cap, tokenChar c = true := by
  intro cs
  induction cs with
  | nil => intro cap h; exact absurd h (by simp [searchToken])
  | cons c t ih =>
    intro cap h
    simp only [searchToken] at h
    split at h
    · split at h
      · rename_i cap2 htok
        cases h
        exact tokenAt_sound _ _ htok
      · exact ih cap h
    · exact ih cap h

theorem dropWhile_eq_self_of_head {p : Char → Bool} (cs : List Char)
    (h : ∀ c ∈ cs, p c = false) : cs.dropWhile p = cs := by
  cases cs with
  | nil => rfl
  | cons c t => rw [List.dropWhile_cons, h c (List.mem_cons_self c t)]; simp

theorem stripChars_eq_self (cs : List Char) (h : ∀ c ∈ cs, tokenChar c = true) :
    stripChars cs = cs := by
  have hx : ∀ c ∈ cs, isSpaceChar c = false := by
    intro c hc
    have ht := h c hc
    unfold tokenChar at ht
    simp only [Bool.not_eq_eq_eq_not, Bool.not_true, Bool.or_eq_false_iff] at ht
    exact ht.2
  unfold stripChars
  rw [dropWhile_eq_self_of_head cs hx,
    dropWhile_eq_self_of_head _ (fun c hc => hx c (List.mem_reverse.mp hc)),
    List.reverse_reverse]

theorem extractApiKey_ne_empty (f : Option String) (s : String)
    (h : extractApiKey f = some s) : s ≠ "" := by
  cases f with
  | none => exact absurd h (by simp [extractApiKey])
  | some content =>
    simp only [extractApiKey] at h
    cases hst : searchToken "api_key".data content.data with
    | none => rw [hst] at h; exact absurd h (by simp)
    | some l =>
      rw [hst] at h
      simp only [Option.map_some', Option.some.injEq] at h
      obtain ⟨hne, hall⟩ := searchToken_sound _ _ _ hst
      subst h
      rw [stripChars_eq_self l hall]
      intro hmk
      exact hne (by simpa using congrArg String.data hmk)

theorem updateKey_of_ne (f : Option String) (k : String) (h : k ≠ "") :
    updateKey f k = k := by
  unfold updateKey
  cases extractApiKey f with
  | none => rfl
  | some s => simp [h]

theorem updateKey_empty (f : Option String) :
    updateKey f "" = (extractApiKey f).getD "" := by
  unfold updateKey
  cases extractApiKey f <;> simp

theorem foldKey_of_ne (files : List (Option String)) (k : String) (h : k ≠ "") :
    foldKey files k = k := by
  induction files with
  | nil => rfl
  | cons f t ih =>
    simp only [foldKey, List.foldl_cons]
    rw [show (parse_bruno_file f k).2 = k from updateKey_of_ne f k h]
    exact ih

theorem foldKey_first (files : List (Option String)) :
    foldKey files "" = ((files.filterMap extractApiKey).head?.getD "") := by
  induction files with
  | nil => rfl
  | cons f t ih =>
    simp only [foldKey, List.foldl_cons, List.filterMap_cons]
    cases hf : extractApiKey f with
    | none =>
      rw [show (parse_bruno_file f "").2 = "" from by
        show updateKey f "" = ""
        rw [updateKey_empty, hf]; rfl]
      exact ih
    | some s =>
      rw [show (parse_bruno_file f "").2 = s from by
        show updateKey f "" = s
        rw [updateKey_empty, hf]; rfl]
      have hs : List.foldl (fun k f => (parse_bruno_file f k).2) s t = s :=
        foldKey_of_ne t s (extractApiKey_ne_empty f s hf)
      rw [hs]
      rfl

/-- Claim C8 (confirmed): the effective API key is first-write-wins.  A call
with a nonempty current key never changes it (even when the file carries a
different `api_key` token), and processing any file list from an unset key
ends with the first `api_key` capture among the files (or stays unset). -/
theorem C8_first_write_wins :
    (∀ (f : Option String) (k : String), k ≠ "" → (parse_bruno_file f k).2 = k) ∧
    (∀ files : List (Option String),
      foldKey files "" = ((files.filterMap extractApiKey).head?.getD "")) :=
  ⟨fun f k h => updateKey_of_ne f k h, foldKey_first⟩

/-- Concrete instance of C8: a configured key survives a file with a
different token, and from an unset key the first captured token wins. -/
theorem C8_witness :
    (parse_bruno_file (some "api_key=NEW") "OLD").2 = "OLD" ∧
    foldKey [some "no key here", some "api_key=K1", some "url: u?api_key=K2&x"] "" = "K1" :=
  ⟨C8_first_write_wins.1 (some "api_key=NEW") "OLD" (by decide),
   by rw [C8_first_write_wins.2]; decide⟩

/-! ### Orchestrator lemmas -/

theorem processFile_eq (fetchRes : String → Option Nat) (fmt : String)
    (st : OrchState) (f : BrunoInput) :
    processFile fetchRes fmt st f =
      { apiKey := updateKey f.content st.apiKey
        all_data :=
          if contributes fetchRes f then
            dictInsert st.all_data (indicatorNameOf f) (rowsOf fetchRes f)
          else st.all_data
        writes := st.writes ++ perFileWrites fetchRes fmt f } := by
  simp only [processFile, perFileWrites, contributes, rowsOf, seriesOf, indicatorNameOf]
  cases hs : (resolveSeries (parseConfig f.content)
      (if (parseConfig f.content).name = "" then f.stem else (parseConfig f.content).name)).isEmpty <;>
    cases hd : ((resolveSeries (parseConfig f.content)
      (if (parseConfig f.content).name = "" then f.stem
       else (parseConfig f.content).name)).filterMap fetchRes).isEmpty <;>
    simp [hs, hd]

theorem foldl_writes (fetchRes : String → Option Nat) (fmt : String) :
    ∀ (files : List BrunoInput) (st : OrchState),
      (files.foldl (processFile fetchRes fmt) st).writes =
        st.writes ++ files.flatMap (perFileWrites fetchRes fmt) := by
  intro files
  induction files with
  | nil => intro st; simp
  | cons f t ih =>
    intro st
    simp only [List.foldl_cons, List.flatMap_cons]
    rw [ih, processFile_eq]
    simp [List.append_assoc]

theorem dictInsert_ne_nil (d : List (String × Nat)) (k : String) (v : Nat) :
    dictInsert d k v ≠ [] := by
  unfold dictInsert
  split
  · rename_i hany
    intro h
    rw [List.map_eq_nil_iff] at h
    subst h
    simp at hany
  · simp

theorem foldl_all_data_nil_iff (fetchRes : String → Option Nat) (fmt : String) :
    ∀ (files : List BrunoInput) (st : OrchState),
      ((files.foldl (processFile fetchRes fmt) st).all_data = [] ↔
        (st.all_data = [] ∧ ∀ f ∈ files, contributes fetchRes f = false)) := by
  intro files
  induction files with
  | nil => intro st; simp
  | cons f t ih =>
    intro st
    simp only [List.foldl_cons]
    rw [ih]
    cases hc : contributes fetchRes f
    · rw [show (processFile fetchRes fmt st f).all_data = st.all_data from by
        rw [processFile_eq]; simp [hc]]
      simp [hc]
    · rw [show (processFile fetchRes fmt st f).all_data =
          dictInsert st.all_data (indicatorNameOf f) (rowsOf fetchRes f) from by
        rw [processFile_eq]; simp [hc]]
      simp [dictInsert_ne_nil, hc]

theorem fetch_all_all_data (files : List BrunoInput) (fetchRes : String → Option Nat)
    (fmt key0 : String) :
    (fetch_all_indicators files fetchRes fmt key0).all_data =
      (files.foldl (processFile fetchRes fmt)
        { apiKey := key0, all_data := [], writes := [] }).all_data := by
  simp only [fetch_all_indicators]
  cases h : (files.foldl (processFile fetchRes fmt)
      { apiKey := key0, all_data := [], writes := [] }).all_data.isEmpty <;> simp [h]

theorem fetch_all_all_data_nil_iff (files : List BrunoInput) (fetchRes : String → Option Nat)
    (fmt key0 : String) :
    ((fetch_all_indicators files fetchRes fmt key0).all_data = [] ↔
      ∀ f ∈ files, contributes fetchRes f = false) := by
  rw [fetch_all_all_data, foldl_all_data_nil_iff]
  simp

theorem save_written_supported (nrows : Nat) (b fmt : String)
    (h : fmt = "csv" ∨ fmt = "json" ∨ fmt = "parquet") :
    (save_data nrows b fmt).written = [{ path := outPath b fmt, nrows := nrows }] := by
  rcases h with h | h | h <;> subst h <;> rfl

theorem save_written_cases (nrows : Nat) (b fmt : String) :
    (save_data nrows b fmt).written = [] ∨
    (save_data nrows b fmt).written = [{ path := outPath b fmt, nrows := nrows }] := by
  by_cases h1 : fmt = "csv"
  · subst h1; right; rfl
  by_cases h2 : fmt = "json"
  · subst h2; right; rfl
  by_cases h3 : fmt = "parquet"
  · subst h3; right; rfl
  · left
    simp [save_data, save_body, h1, h2, h3]

theorem mem_save_written (w : FileWrite) (nrows : Nat) (b fmt : String)
    (h : w ∈ (save_data nrows b fmt).written) : w.path = outPath b fmt := by
  rcases save_written_cases nrows b fmt with hc | hc <;> rw [hc] at h
  · exact absurd h (List.not_mem_nil w)
  · rw [List.mem_singleton] at h
    subst h
    rfl

theorem fetch_all_writes_decomp (files : List BrunoInput) (fetchRes : String → Option Nat)
    (fmt key0 : String) :
    (fetch_all_indicators files fetchRes fmt key0).writes =
      files.flatMap (perFileWrites fetchRes fmt) ++
        (if (fetch_all_indicators files fetchRes fmt key0).all_data = [] then []
         else (save_data
            (((fetch_all_indicators files fetchRes fmt key0).all_data.map (fun p => p.2)).sum)
            "all_economic_indicators" fmt).written) := by
  rw [fetch_all_all_data]
  simp only [fetch_all_indicators]
  cases h : (files.foldl (processFile fetchRes fmt)
      { apiKey := key0, all_data := [], writes := [] }).all_data.isEmpty
  · have hne : (files.foldl (processFile fetchRes fmt)
        { apiKey := key0, all_data := [], writes := [] }).all_data ≠ [] := by
      intro hx
      rw [hx] at h
      simp at h
    simp only [h, Bool.false_eq_true, if_false, if_neg hne]
    rw [foldl_writes]
    rfl
  · rw [List.isEmpty_iff] at h
    simp only [h, List.isEmpty_nil, if_true, if_pos rfl]
    rw [foldl_writes]
    simp [h]

/-! ### Claim C4 -/

/-- Claim C4 as stated: per-indicator files are written only for datasets
with at least one row, and the combined file is written iff at least one
indicator produced data (at least one row). -/
def C4_claim : Prop :=
  ∀ (files : List BrunoInput) (fetchRes : String → Option Nat) (fmt key0 : String),
    (∀ w ∈ (fetch_all_indicators files fetchRes fmt key0).writes,
        w.path ≠ outPath "all_economic_indicators" fmt → 1 ≤ w.nrows) ∧
    ((∃ w ∈ (fetch_all_indicators files fetchRes fmt key0).writes,
        w.path = outPath "all_economic_indicators" fmt) ↔
      ∃ p ∈ (fetch_all_indicators files fetchRes fmt key0).all_data, 1 ≤ p.2)

/-- Claim C4 is false on the code: `if df is not None` at line 260 keeps an
EMPTY DataFrame (a fetch whose rows were all dropped during cleaning), and
`if indicator_data:` at line 266 tests the list of DataFrames, not row
counts — so a run whose only fetch returns a zero-row dataset still writes
a zero-row per-indicator file and a zero-row combined file. -/
theorem C4_counterexample : ¬ C4_claim := by
  intro h
  have h1 := (h [{ stem := "f", content := some "name: X\nseries_id=S" }]
    (fun _ => some 0) "csv" "").1
  have h2 := h1 { path := "data/x.csv", nrows := 0 } (by decide) (by decide)
  exact absurd h2 (by decide)

/-- Claim C4 (amended): a per-indicator file is written for a processed
definition file exactly when the file resolves to a nonempty series list
and at least one of its series fetches returns a dataset — possibly a
zero-row one; given a supported format, the combined
`all_economic_indicators` file is written iff `all_data` is nonempty, i.e.
iff some file contributed a (possibly empty) dataset. -/
theorem C4_amended (files : List BrunoInput) (fetchRes : String → Option Nat)
    (fmt key0 : String) (hfmt : fmt = "csv" ∨ fmt = "json" ∨ fmt = "parquet") :
    ((∃ w ∈ (fetch_all_indicators files fetchRes fmt key0).writes,
        w.path = outPath "all_economic_indicators" fmt) ↔
      (fetch_all_indicators files fetchRes fmt key0).all_data ≠ []) ∧
    (∀ f : BrunoInput, perFileWrites fetchRes fmt f ≠ [] ↔ contributes fetchRes f = true) ∧
    (fetch_all_indicators files fetchRes fmt key0).writes =
      files.flatMap (perFileWrites fetchRes fmt) ++
        (if (fetch_all_indicators files fetchRes fmt key0).all_data = [] then []
         else [{ path := outPath "all_economic_indicators" fmt,
                 nrows := (((fetch_all_indicators files fetchRes fmt key0).all_data.map
                   (fun p => p.2)).sum) }]) := by
  have hchar : ∀ f : BrunoInput, perFileWrites fetchRes fmt f ≠ [] ↔
      contributes fetchRes f = true := by
    intro f
    unfold perFileWrites
    cases hc : contributes fetchRes f
    · simp
    · simp [save_written_supported _ _ _ hfmt]
  have hdec := fetch_all_writes_decomp files fetchRes fmt key0
  rw [save_written_supported _ _ _ hfmt] at hdec
  refine ⟨?_, hchar, hdec⟩
  constructor
  · rintro ⟨w, hw, hpath⟩
    rw [hdec] at hw
    rcases List.mem_append.mp hw with hw | hw
    · rcases List.mem_flatMap.mp hw with ⟨f, hf, hwf⟩
      intro hnil
      rw [fetch_all_all_data_nil_iff] at hnil
      have := (hchar f).1 (List.ne_nil_of_mem hwf)
      rw [hnil f hf] at this
      exact Bool.false_ne_true this
    · intro hnil
      rw [if_pos hnil] at hw
      exact absurd hw (List.not_mem_nil w)
  · intro hne
    refine ⟨{ path := outPath "all_economic_indicators" fmt
              nrows := (((fetch_all_indicators files fetchRes fmt key0).all_data.map
                (fun p => p.2)).sum) }, ?_, rfl⟩
    rw [hdec]
    refine List.mem_append_right _ ?_
    rw [if_neg hne]
    exact List.mem_singleton_self _

/-- Concrete instance of the amended C4: one file resolving `"GDP data"`,
one successful fetch — the combined file is written iff `all_data` is
nonempty. -/
theorem C4_witness :
    (∃ w ∈ (fetch_all_indicators [{ stem := "g", content := some "name: GDP data" }]
        (fun s => if s = "GDP" then some 2 else none) "csv" "").writes,
      w.path = outPath "all_economic_indicators" "csv") ↔
    (fetch_all_indicators [{ stem := "g", content := some "name: GDP data" }]
        (fun s => if s = "GDP" then some 2 else none) "csv" "").all_data ≠ [] :=
  (C4_amended [{ stem := "g", content := some "name: GDP data" }]
    (fun s => if s = "GDP" then some 2 else none) "csv" "" (Or.inl rfl)).1

/-! ### Claim C5 -/

/-- The base-name sanitization the spec sentence describes: lower-case, then
EVERY character outside `\w` (so a hyphen included) becomes an underscore. -/
def sanSpec (name : String) : String :=
  String.mk ((name.data.map Char.toLower).map
    (fun c => if c.isAlphanum || c = '_' then c else '_'))

/-- Claim C5 as stated: every file the orchestrator writes is either the
combined file or named `sanSpec(indicator name) + "." + format` under the
data directory. -/
def C5_claim : Prop :=
  ∀ (files : List BrunoInput) (fetchRes : String → Option Nat) (fmt key0 : String),
    ∀ w ∈ (fetch_all_indicators files fetchRes fmt key0).writes,
      w.path = outPath "all_economic_indicators" fmt ∨
      ∃ f ∈ files, w.path = outPath (sanSpec (indicatorNameOf f)) fmt

/-- Claim C5 is false on the code: the class in
`re.sub(r'[^\w\-_]', '_', ...)` at line 276 does NOT match a hyphen, so
hyphens are preserved: the indicator `"X-Y"` is written to `data/x-y.csv`,
not `data/x_y.csv` as the claim predicts. -/
theorem C5_counterexample : ¬ C5_claim := by
  intro h
  have h1 := h [{ stem := "f1", content := some "name: X-Y\nseries_id=S" }]
    (fun _ => some 3) "csv" "" { path := "data/x-y.csv", nrows := 3 } (by decide)
  rcases h1 with h1 | ⟨f, hf, h1⟩
  · exact absurd h1 (by decide)
  · rw [List.mem_singleton] at hf
    subst hf
    exact absurd h1 (by decide)

/-- The sanitization the code actually performs, written out: lower-case,
then every character that is neither a word character nor a hyphen becomes
an underscore — hyphens survive. -/
def amendedSanitize (name : String) : String :=
  String.mk ((name.data.map Char.toLower).map
    (fun c => if c.isAlphanum || c = '_' || c = '-' then c else '_'))

/-- Claim C5 (amended): every per-indicator file the orchestrator writes is
named `clean_filename(indicator name) + "." + format` under the data
directory, where `clean_filename` lower-cases and replaces every character
that is neither a word character nor a hyphen with an underscore (hyphens
are kept, not replaced). -/
theorem C5_amended (files : List BrunoInput) (fetchRes : String → Option Nat)
    (fmt key0 : String) :
    (∀ w ∈ (fetch_all_indicators files fetchRes fmt key0).writes,
      w.path = outPath "all_economic_indicators" fmt ∨
      ∃ f ∈ files, w.path = outPath (clean_filename (indicatorNameOf f)) fmt) ∧
    (∀ s : String, clean_filename s = amendedSanitize s) := by
  constructor
  · intro w hw
    rw [fetch_all_writes_decomp] at hw
    rcases List.mem_append.mp hw with hw | hw
    · right
      rcases List.mem_flatMap.mp hw with ⟨f, hf, hwf⟩
      refine ⟨f, hf, ?_⟩
      unfold perFileWrites at hwf
      split at hwf
      · exact mem_save_written _ _ _ _ hwf
      · exact absurd hwf (List.not_mem_nil w)
    · left
      split at hw
      · exact absurd hw (List.not_mem_nil w)
      · exact mem_save_written _ _ _ _ hw
  · intro s
    unfold clean_filename re_sub_nonword_underscore lowerStr amendedSanitize
    have hfun : (fun c => if !(c.isAlphanum || c = '_' || c = '-') then '_' else c) =
        (fun c : Char => if c.isAlphanum || c = '_' || c = '-' then c else '_') := by
      funext c
      cases h : (c.isAlphanum || c = '_' || c = '-') <;> simp [h]
    rw [hfun]

/-- Concrete instance of the amended C5: the file written for indicator
`"X-Y"` carries the code's sanitized base name (`x-y`, hyphen kept). -/
theorem C5_witness :
    ({ path := "data/x-y.csv", nrows := 3 } : FileWrite).path =
        outPath "all_economic_indicators" "csv" ∨
    ∃ f ∈ [{ stem := "f1", content := some "name: X-Y\nseries_id=S" }],
      ({ path := "data/x-y.csv", nrows := 3 } : FileWrite).path =
        outPath (clean_filename (indicatorNameOf f)) "csv" :=
  (C5_amended [{ stem := "f1", content := some "name: X-Y\nseries_id=S" }]
    (fun _ => some 3) "csv" "").1 { path := "data/x-y.csv", nrows := 3 } (by decide)
